import Mathlib

/-!
Verification development for the tiered audio cache and failover monitoring
of the safety-alert backend (services/smartAudioCache.mjs and
services/failoverMonitoring.mjs), shallowly embedded in Lean 4.

Conventions of the embedding:
* machine bytes and 32-bit words are `Nat` with explicit `% 2^32` where the
  JavaScript source relies on 32-bit wraparound (inside the MD5 compression
  function);
* a JavaScript `Map` is an insertion-ordered association list
  `List (String × α)`; `Map.set` replaces in place keeping the position,
  `Map.delete` removes, `map.keys().next().value` is the head key — exactly
  the iteration-order semantics the source relies on;
* `Date.now()` timestamps are `Nat` (epoch milliseconds); the JS subtraction
  `now - t` is `Nat` subtraction (timestamps never run backwards in the
  source's use);
* the ambient environment (AWS S3 results, filesystem write success, the
  Polly generator outcome, `process.env`) is passed explicitly as a `World`
  respectively `Env` value;
* `async` functions that catch their own errors are total functions; errors
  that the source rethrows are `Except`.
-/

/-! ## Bytes, hex digits, UTF-8 -/

/-- Byte buffers (Node `Buffer`) as lists of byte values. -/
abbrev ByteBuf := List Nat

/-- Lowercase hexadecimal digit for a value `0..15`, as produced by Node's
`digest('hex')`. -/
def hexDigit (n : Nat) : Char :=
  if n < 10 then Char.ofNat (48 + n) else Char.ofNat (87 + n % 16)

/-- UTF-8 encoding of a single code point (Node's default encoding for
`hash.update(string)`). -/
def utf8Char (c : Char) : List Nat :=
  let n := c.toNat
  if n < 128 then [n]
  else if n < 2048 then [192 + n / 64, 128 + n % 64]
  else if n < 65536 then [224 + n / 4096, 128 + n / 64 % 64, 128 + n % 64]
  else [240 + n / 262144, 128 + n / 4096 % 64, 128 + n / 64 % 64, 128 + n % 64]

/-- UTF-8 encoding of a string as a byte list. -/
def utf8Encode (s : String) : List Nat :=
  s.data.foldr (fun c acc => utf8Char c ++ acc) []

/-! ## JSON.stringify for flat string-valued objects

`generateCacheKey` hashes `JSON.stringify({text, voiceId, engine, format})`.
Only string escaping and object layout matter here. -/

/-- JSON escape of one character, as `JSON.stringify` emits it. -/
def jsonEscapeChar (c : Char) : List Char :=
  let bs : Char := Char.ofNat 92
  if c = Char.ofNat 34 then [bs, Char.ofNat 34]
  else if c = bs then [bs, bs]
  else if c = Char.ofNat 8 then [bs, 'b']
  else if c = Char.ofNat 9 then [bs, 't']
  else if c = Char.ofNat 10 then [bs, 'n']
  else if c = Char.ofNat 12 then [bs, 'f']
  else if c = Char.ofNat 13 then [bs, 'r']
  else if c.toNat < 32 then
    [bs, 'u', '0', '0', hexDigit (c.toNat / 16), hexDigit (c.toNat % 16)]
  else [c]

/-- A JSON string literal: quote, escaped body, quote. -/
def jsonString (s : String) : String :=
  String.mk (Char.ofNat 34 :: s.data.foldr (fun c acc => jsonEscapeChar c ++ acc) [Char.ofNat 34])

/-- A flat JSON object with string values, fields in the given order
(JavaScript object-literal property order). -/
def jsonObj (fields : List (String × String)) : String :=
  String.mk [Char.ofNat 123]
    ++ String.intercalate "," (fields.map (fun f => jsonString f.1 ++ ":" ++ jsonString f.2))
    ++ String.mk [Char.ofNat 125]

/-! ## MD5 (crypto.createHash('md5') … digest('hex')) -/

/-- The 64 MD5 sine-derived round constants. -/
def md5K : List Nat :=
  [0xd76aa478, 0xe8c7b756, 0x242070db, 0xc1bdceee,
   0xf57c0faf, 0x4787c62a, 0xa8304613, 0xfd469501,
   0x698098d8, 0x8b44f7af, 0xffff5bb1, 0x895cd7be,
   0x6b901122, 0xfd987193, 0xa679438e, 0x49b40821,
   0xf61e2562, 0xc040b340, 0x265e5a51, 0xe9b6c7aa,
   0xd62f105d, 0x02441453, 0xd8a1e681, 0xe7d3fbc8,
   0x21e1cde6, 0xc33707d6, 0xf4d50d87, 0x455a14ed,
   0xa9e3e905, 0xfcefa3f8, 0x676f02d9, 0x8d2a4c8a,
   0xfffa3942, 0x8771f681, 0x6d9d6122, 0xfde5380c,
   0xa4beea44, 0x4bdecfa9, 0xf6bb4b60, 0xbebfbc70,
   0x289b7ec6, 0xeaa127fa, 0xd4ef3085, 0x04881d05,
   0xd9d4d039, 0xe6db99e5, 0x1fa27cf8, 0xc4ac5665,
   0xf4292244, 0x432aff97, 0xab9423a7, 0xfc93a039,
   0x655b59c3, 0x8f0ccc92, 0xffeff47d, 0x85845dd1,
   0x6fa87e4f, 0xfe2ce6e0, 0xa3014314, 0x4e0811a1,
   0xf7537e82, 0xbd3af235, 0x2ad7d2bb, 0xeb86d391]

/-- The 64 MD5 per-round left-rotation amounts. -/
def md5S : List Nat :=
  [7, 12, 17, 22, 7, 12, 17, 22, 7, 12, 17, 22, 7, 12, 17, 22,
   5, 9, 14, 20, 5, 9, 14, 20, 5, 9, 14, 20, 5, 9, 14, 20,
   4, 11, 16, 23, 4, 11, 16, 23, 4, 11, 16, 23, 4, 11, 16, 23,
   6, 10, 15, 21, 6, 10, 15, 21, 6, 10, 15, 21, 6, 10, 15, 21]

/-- 32-bit left rotation of a word `x < 2^32`. -/
def rotl32 (x c : Nat) : Nat :=
  (x * 2 ^ c + x / 2 ^ (32 - c)) % 4294967296

/-- MD5 nonlinear round function for round `i` (bitwise complement is
xor with the 32-bit mask). -/
def md5F (i b c d : Nat) : Nat :=
  if i < 16 then (b &&& c) ||| ((b ^^^ 4294967295) &&& d)
  else if i < 32 then (d &&& b) ||| ((d ^^^ 4294967295) &&& c)
  else if i < 48 then b ^^^ c ^^^ d
  else c ^^^ (b ||| (d ^^^ 4294967295))

/-- MD5 message-word index for round `i`. -/
def md5G (i : Nat) : Nat :=
  if i < 16 then i
  else if i < 32 then (5 * i + 1) % 16
  else if i < 48 then (3 * i + 5) % 16
  else (7 * i) % 16

/-- Running MD5 state: the four 32-bit registers. -/
structure MD5State where
  a : Nat
  b : Nat
  c : Nat
  d : Nat
deriving Repr, DecidableEq

/-- Initial MD5 register values. -/
def md5Init : MD5State :=
  { a := 0x67452301, b := 0xefcdab89, c := 0x98badcfe, d := 0x10325476 }

/-- The 16 little-endian 32-bit message words of one 64-byte chunk. -/
def md5Words (chunk : List Nat) : List Nat :=
  (List.range 16).map fun j =>
    chunk.getD (4 * j) 0 + chunk.getD (4 * j + 1) 0 * 256
      + chunk.getD (4 * j + 2) 0 * 65536 + chunk.getD (4 * j + 3) 0 * 16777216

/-- One MD5 round applied to the register state. -/
def md5Round (m : List Nat) (st : MD5State) (i : Nat) : MD5State :=
  let f := (md5F i st.b st.c st.d + st.a + md5K.getD i 0 + m.getD (md5G i) 0) % 4294967296
  { a := st.d, b := (st.b + rotl32 f (md5S.getD i 0)) % 4294967296, c := st.b, d := st.c }

/-- MD5 compression of one 64-byte chunk. -/
def md5Chunk (st : MD5State) (chunk : List Nat) : MD5State :=
  let m := md5Words chunk
  let r := (List.range 64).foldl (md5Round m) st
  { a := (st.a + r.a) % 4294967296, b := (st.b + r.b) % 4294967296,
    c := (st.c + r.c) % 4294967296, d := (st.d + r.d) % 4294967296 }

/-- MD5 padding: `0x80`, zeros to 56 mod 64, then the 64-bit little-endian
bit length. -/
def md5Pad (msg : List Nat) : List Nat :=
  let bitLen := msg.length * 8
  msg ++ [128] ++ List.replicate ((119 - msg.length % 64) % 64) 0
    ++ (List.range 8).map (fun j => bitLen / 2 ^ (8 * j) % 256)

/-- Split a byte list into successive 64-byte chunks; structural recursion
on a fuel bound so the definition evaluates by kernel reduction. -/
def chunksOf64Fuel : Nat → List Nat → List (List Nat)
  | 0, _ => []
  | _, [] => []
  | fuel + 1, x :: xs => (x :: xs).take 64 :: chunksOf64Fuel fuel ((x :: xs).drop 64)

/-- Split a byte list into successive 64-byte chunks. -/
def chunksOf64 (l : List Nat) : List (List Nat) :=
  chunksOf64Fuel l.length l

/-- Little-endian byte serialization of one 32-bit word. -/
def wordLE (w : Nat) : List Nat :=
  [w % 256, w / 256 % 256, w / 65536 % 256, w / 16777216 % 256]

/-- The 16-byte MD5 digest of a byte message. -/
def md5Bytes (msg : List Nat) : List Nat :=
  let r := (chunksOf64 (md5Pad msg)).foldl md5Chunk md5Init
  wordLE r.a ++ wordLE r.b ++ wordLE r.c ++ wordLE r.d

/-- The 32-character lowercase hex MD5 digest, as `digest('hex')` returns. -/
def md5Hex (msg : List Nat) : String :=
  String.mk ((md5Bytes msg).foldr (fun b acc => hexDigit (b / 16) :: hexDigit (b % 16) :: acc) [])

/-! ## Cache key derivation (generateCacheKey) -/

/-- The `options` argument of the cache entry points; absent fields fall back
to the source defaults via JavaScript `||`. -/
structure TtsOptions where
  engine : Option String := none
  format : Option String := none
deriving Repr, DecidableEq

/-- JavaScript `x || d` for an optional string field: the default is used
when the field is absent or the empty string (falsy). -/
def jsOr (x : Option String) (d : String) : String :=
  match x with
  | some s => if s = "" then d else s
  | none => d

/-- The JavaScript whitespace class trimmed by `String.prototype.trim`:
ASCII whitespace, NBSP, the Unicode space separators, line/paragraph
separators, and the BOM. -/
def isJsWhitespace (c : Char) : Bool :=
  c.toNat == 9 || c.toNat == 10 || c.toNat == 11 || c.toNat == 12 || c.toNat == 13 ||
  c.toNat == 32 || c.toNat == 160 || c.toNat == 5760 ||
  (Nat.ble 8192 c.toNat && Nat.ble c.toNat 8202) ||
  c.toNat == 8232 || c.toNat == 8233 || c.toNat == 8239 || c.toNat == 8287 ||
  c.toNat == 12288 || c.toNat == 65279

/-- JavaScript `text.trim()`: strip leading and trailing whitespace. -/
def jsTrim (t : String) : String :=
  String.mk (((t.data.dropWhile isJsWhitespace).reverse.dropWhile isJsWhitespace).reverse)

/-- The source's `text.trim().toLowerCase()` normalization.
`Char.toLower` models `toLowerCase` on the ASCII texts the service
handles. -/
def normalizeText (t : String) : String :=
  String.mk ((jsTrim t).data.map Char.toLower)

/-- The JSON document `generateCacheKey` feeds to the hash:
`JSON.stringify({text: normalized, voiceId, engine, format})`. -/
def cacheKeyData (text voiceId : String) (o : TtsOptions) : String :=
  jsonObj [("text", normalizeText text), ("voiceId", voiceId),
           ("engine", jsOr o.engine "neural"), ("format", jsOr o.format "mp3")]

/-- `generateCacheKey(text, voiceId, options)`: MD5 hex digest of the JSON
document over the normalized text and the voice/engine/format fields. -/
def generateCacheKey (text voiceId : String) (o : TtsOptions) : String :=
  md5Hex (utf8Encode (cacheKeyData text voiceId o))

/-! ## JavaScript Map as insertion-ordered association list -/

/-- `map.get(k)`: the value of the (unique) entry with key `k`. -/
def mapGet (k : String) : List (String × α) → Option α
  | [] => none
  | p :: rest => if p.1 = k then some p.2 else mapGet k rest

/-- `map.delete(k)`: remove the entry with key `k`, keeping the order of the
others. -/
def mapDelete (k : String) : List (String × α) → List (String × α)
  | [] => []
  | p :: rest => if p.1 = k then rest else p :: mapDelete k rest

/-- `map.set(k, v)`: replace in place when `k` is present (keeping its
position in iteration order), otherwise append at the end. -/
def mapSet (k : String) (v : α) : List (String × α) → List (String × α)
  | [] => [(k, v)]
  | p :: rest => if p.1 = k then (k, v) :: rest else p :: mapSet k v rest

/-- `map.keys().next().value`: the first key in iteration order
(`none` models the `undefined` of an empty map). -/
def firstKey (m : List (String × α)) : Option String :=
  m.head?.map (·.1)

/-! ## Cache state (the SmartAudioCache instance fields) -/

/-- A memory-cache entry: `{data, timestamp}` as stored by
`storeInMemoryCache`. -/
structure MemEntry where
  data : ByteBuf
  timestamp : Nat
deriving Repr, DecidableEq

/-- The `this.stats` counters. -/
structure CacheStats where
  memoryHits : Nat := 0
  diskHits : Nat := 0
  s3Hits : Nat := 0
  misses : Nat := 0
  totalRequests : Nat := 0
deriving Repr, DecidableEq

/-- The mutable fields of a `SmartAudioCache` instance.  The disk tier is
its pair of colocated files per key (`<key>.mp3` payload, `<key>.meta`
timestamp) plus the in-process `diskCache` index; `s3Stored` records the
objects written to the remote bucket by `storeToS3Cache`. -/
structure CacheState where
  maxMemoryCache : Nat
  maxDiskCache : Nat
  cacheExpiry : Nat
  memoryCache : List (String × MemEntry)
  diskMp3 : List (String × ByteBuf)
  diskMeta : List (String × Nat)
  diskCache : List (String × Nat)
  s3Stored : List (String × ByteBuf)
  s3Cache : Bool
  stats : CacheStats
deriving Repr, DecidableEq

/-- A fresh `SmartAudioCache` as the constructor configures it:
memory capacity 50, disk capacity 200, 24-hour expiry, S3 tier enabled,
all tiers empty. -/
def initialCacheState : CacheState :=
  { maxMemoryCache := 50, maxDiskCache := 200, cacheExpiry := 24 * 60 * 60 * 1000,
    memoryCache := [], diskMp3 := [], diskMeta := [], diskCache := [],
    s3Stored := [], s3Cache := true, stats := {} }

/-- Names of S3 errors as the source inspects them (`error.name`). -/
abbrev S3ErrName := String

/-- The ambient world of one `getAudioWithCache` call: the clock, the S3
responses per object key, whether filesystem writes succeed, whether the
fire-and-forget S3 put succeeds, and the outcome of the Polly generator. -/
structure World where
  now : Nat
  s3Head : String → Except S3ErrName Nat
  s3Get : String → Except S3ErrName ByteBuf
  s3PutOk : Bool
  diskWriteOk : Bool
  generator : Except String ByteBuf

/-- The S3 object key `audio-cache/${cacheKey}.mp3`. -/
def s3ObjectKey (cacheKey : String) : String :=
  "audio-cache/" ++ cacheKey ++ ".mp3"

/-! ## Tier operations -/

/-- `checkMemoryCache(cacheKey)`: hit iff the entry exists and
`now - timestamp < cacheExpiry`; an expired entry that is still present is
deleted and the check misses. -/
def checkMemoryCache (now : Nat) (cacheKey : String) (st : CacheState) :
    Option ByteBuf × CacheState :=
  match mapGet cacheKey st.memoryCache with
  | some cached =>
    if now - cached.timestamp < st.cacheExpiry then (some cached.data, st)
    else (none, { st with memoryCache := mapDelete cacheKey st.memoryCache })
  | none => (none, st)

/-- `storeInMemoryCache(cacheKey, audioBuffer)`: when at capacity, delete
the map's first key in iteration order, then `set` the new entry. -/
def storeInMemoryCache (cacheKey : String) (audioBuffer : ByteBuf) (now : Nat)
    (st : CacheState) : CacheState :=
  let m :=
    if st.memoryCache.length ≥ st.maxMemoryCache then
      match firstKey st.memoryCache with
      | some fk => mapDelete fk st.memoryCache
      | none => st.memoryCache
    else st.memoryCache
  { st with memoryCache := mapSet cacheKey { data := audioBuffer, timestamp := now } m }

/-- `checkDiskCache(cacheKey)`: miss unless both the payload file and the
metadata file exist; expired (`now - meta.timestamp > cacheExpiry`) entries
are unlinked and the check misses — note the strict `>`: an entry whose age
equals the expiry is returned as a hit. -/
def checkDiskCache (now : Nat) (cacheKey : String) (st : CacheState) :
    Option ByteBuf × CacheState :=
  match mapGet cacheKey st.diskMp3, mapGet cacheKey st.diskMeta with
  | some data, some ts =>
    if now - ts > st.cacheExpiry then
      (none, { st with diskMp3 := mapDelete cacheKey st.diskMp3,
                       diskMeta := mapDelete cacheKey st.diskMeta })
    else (some data, st)
  | _, _ => (none, st)

/-- `removeDiskCacheEntry(cacheKey)`: unlink both files and drop the index
entry. -/
def removeDiskCacheEntry (cacheKey : String) (st : CacheState) : CacheState :=
  { st with diskMp3 := mapDelete cacheKey st.diskMp3,
            diskMeta := mapDelete cacheKey st.diskMeta,
            diskCache := mapDelete cacheKey st.diskCache }

/-- `storeToDiskCache(cacheKey, audioBuffer)`: evict the first index key at
capacity, write payload and metadata files, record the index entry.  The
whole body is wrapped in try/catch, so a filesystem failure
(`w.diskWriteOk = false`, modelling the first write throwing) leaves the
caller unaffected. -/
def storeToDiskCache (w : World) (cacheKey : String) (audioBuffer : ByteBuf)
    (st : CacheState) : CacheState :=
  if w.diskWriteOk then
    let st :=
      if st.diskCache.length ≥ st.maxDiskCache then
        match firstKey st.diskCache with
        | some oldest => removeDiskCacheEntry oldest st
        | none => st
      else st
    { st with diskMp3 := mapSet cacheKey audioBuffer st.diskMp3,
              diskMeta := mapSet cacheKey w.now st.diskMeta,
              diskCache := mapSet cacheKey w.now st.diskCache }
  else st

/-- The catch block of `checkS3Cache`: `NoSuchKey` and `NotFound` return
null directly, every other error is logged and the function also returns
null. -/
def s3CatchHandler (errName : S3ErrName) : Option ByteBuf :=
  if errName = "NoSuchKey" ∨ errName = "NotFound" then none else none

/-- `checkS3Cache(cacheKey)`: head the object, treat it as a miss when
`now - lastModified > cacheExpiry` (strict `>`, no delete), otherwise fetch
the body.  Any error thrown by either S3 call lands in the catch and
becomes a miss. -/
def checkS3Cache (w : World) (cacheExpiry : Nat) (cacheKey : String) : Option ByteBuf :=
  match w.s3Head (s3ObjectKey cacheKey) with
  | .error e => s3CatchHandler e
  | .ok lastModified =>
    if w.now - lastModified > cacheExpiry then none
    else
      match w.s3Get (s3ObjectKey cacheKey) with
      | .error e => s3CatchHandler e
      | .ok buf => some buf

/-- `storeToS3Cache(cacheKey, audioBuffer)`: put the object; its own
try/catch absorbs a failed put. -/
def storeToS3Cache (w : World) (cacheKey : String) (audioBuffer : ByteBuf)
    (st : CacheState) : CacheState :=
  if w.s3PutOk then
    { st with s3Stored := mapSet (s3ObjectKey cacheKey) audioBuffer st.s3Stored }
  else st

/-- `storeInAllCaches(cacheKey, audioBuffer)`: memory, then disk, then —
when the S3 tier is enabled — a fire-and-forget S3 put whose failure is only
logged (`.catch`). -/
def storeInAllCaches (w : World) (cacheKey : String) (audioBuffer : ByteBuf)
    (st : CacheState) : CacheState :=
  let st := storeInMemoryCache cacheKey audioBuffer w.now st
  let st := storeToDiskCache w cacheKey audioBuffer st
  if st.s3Cache then storeToS3Cache w cacheKey audioBuffer st else st

/-! ## The main lookup: getAudioWithCache -/

/-- The `source` field of a `getAudioWithCache` result. -/
inductive CacheSource
  | memory
  | disk
  | s3
  | generated
deriving Repr, DecidableEq

/-- The object `getAudioWithCache` resolves with. -/
structure CacheResult where
  audioBuffer : ByteBuf
  source : CacheSource
  cacheKey : String
  fromCache : Bool
deriving Repr, DecidableEq

/-- Observable probe/generation events of one lookup, in order. -/
inductive Ev
  | memProbe
  | diskProbe
  | s3Probe
  | genCall
deriving Repr, DecidableEq

/-- The `process.env` fields touched by the S3 failover path.  The cache
lookup receives it but — like the source — never reads it: the lookup's S3
gate is the instance field `s3Cache` alone (line 105 of
smartAudioCache.mjs). -/
structure Env where
  useS3Cache : Option String := none
  cacheMode : Option String := none
deriving Repr, DecidableEq

/-- Helper: bump one stats field. -/
def bumpTotal (st : CacheState) : CacheState :=
  { st with stats := { st.stats with totalRequests := st.stats.totalRequests + 1 } }

/-- `getAudioWithCache(text, voiceId, options)`: memory → disk → S3 →
generate, with promotion of slower-tier hits into the faster tiers and
write-through of generated audio into all tiers.  Returns the result (or the
rethrown generation error), the final instance state, and the event trace.
The `env` parameter is the ambient `process.env`; the body deliberately
ignores it, as the source does. -/
def getAudioWithCache (w : World) (env : Env) (text : String) (voiceId : String)
    (o : TtsOptions) (st : CacheState) :
    Except String CacheResult × CacheState × List Ev :=
  let st := bumpTotal st
  let cacheKey := generateCacheKey text voiceId o
  match checkMemoryCache w.now cacheKey st with
  | (some buf, st) =>
    (.ok { audioBuffer := buf, source := .memory, cacheKey := cacheKey, fromCache := true },
     { st with stats := { st.stats with memoryHits := st.stats.memoryHits + 1 } },
     [.memProbe])
  | (none, st) =>
    match checkDiskCache w.now cacheKey st with
    | (some buf, st) =>
      let st := { st with stats := { st.stats with diskHits := st.stats.diskHits + 1 } }
      let st := storeInMemoryCache cacheKey buf w.now st
      (.ok { audioBuffer := buf, source := .disk, cacheKey := cacheKey, fromCache := true },
       st, [.memProbe, .diskProbe])
    | (none, st) =>
      let evs := [Ev.memProbe, Ev.diskProbe] ++ (if st.s3Cache then [Ev.s3Probe] else [])
      match (if st.s3Cache then checkS3Cache w st.cacheExpiry cacheKey else none) with
      | some buf =>
        let st := { st with stats := { st.stats with s3Hits := st.stats.s3Hits + 1 } }
        let st := storeInMemoryCache cacheKey buf w.now st
        let st := storeToDiskCache w cacheKey buf st
        (.ok { audioBuffer := buf, source := .s3, cacheKey := cacheKey, fromCache := true },
         st, evs)
      | none =>
        let st := { st with stats := { st.stats with misses := st.stats.misses + 1 } }
        match w.generator with
        | .error e => (.error e, st, evs ++ [Ev.genCall])
        | .ok buf =>
          (.ok { audioBuffer := buf, source := .generated, cacheKey := cacheKey,
                 fromCache := false },
           storeInAllCaches w cacheKey buf st, evs ++ [Ev.genCall])

/-! ## Failover monitoring (failoverMonitoring.mjs) -/

/-- The status strings kept in `serviceStatus`. -/
inductive ServiceStatus
  | healthy
  | degraded
  | failed
deriving Repr, DecidableEq

/-- Per-dependency health record: its consecutive-failure counter and its
status entry. -/
structure DepHealth where
  consecutiveFailures : Nat
  status : ServiceStatus
deriving Repr, DecidableEq

/-- A dependency's record at service startup. -/
def initialDepHealth : DepHealth :=
  { consecutiveFailures := 0, status := .healthy }

/-- One `performHealthCheck` cycle for one dependency, given the probe
outcome.  Success resets the counter and the status; a failure increments
the counter and — when it reaches or exceeds `failoverThreshold` — marks the
service failed and invokes `triggerFailover` (returned flag).  Note the
trigger fires on every failing check at or above the threshold, not only on
the first. -/
def healthCheckStep (failoverThreshold : Nat) (healthy : Bool) (st : DepHealth) :
    DepHealth × Bool :=
  if healthy then ({ consecutiveFailures := 0, status := .healthy }, false)
  else
    let failures := st.consecutiveFailures + 1
    if failures ≥ failoverThreshold then
      ({ consecutiveFailures := failures, status := .failed }, true)
    else
      ({ consecutiveFailures := failures, status := .degraded }, false)

/-- Run a sequence of probe outcomes through `healthCheckStep`, counting how
many times `triggerFailover` is invoked. -/
def runHealthChecks (failoverThreshold : Nat) (probes : List Bool) (st : DepHealth) :
    DepHealth × Nat :=
  probes.foldl
    (fun acc p =>
      let r := healthCheckStep failoverThreshold p acc.1
      (r.1, acc.2 + (if r.2 then 1 else 0)))
    (st, 0)

/-- `s3Failover(error)`: sets `process.env.USE_S3_CACHE = "false"` and
`process.env.CACHE_MODE = "memory_only"` and reports success.  It touches
nothing else — in particular no field of any `SmartAudioCache` instance. -/
def s3Failover (e : Env) : Env × Bool :=
  ({ e with useS3Cache := some "false", cacheMode := some "memory_only" }, true)

/-! ## Two concurrent getAudioWithCache calls

The source's `getAudioWithCache` is an `async` function on Node's
single-threaded event loop: it runs atomically between `await` points.  For
a call whose memory and disk probes miss, the suspension points are the
awaited S3 probe and the awaited Polly generation.  `taskStep` is the
source's control flow cut at exactly those awaits; a schedule is the order
in which the event loop resumes the two calls. -/

instance {ε α : Type} [DecidableEq ε] [DecidableEq α] : DecidableEq (Except ε α) := fun a b =>
  match a, b with
  | .ok x, .ok y =>
    if h : x = y then .isTrue (by rw [h]) else .isFalse (by intro hc; cases hc; exact h rfl)
  | .ok _, .error _ => .isFalse (by intro hc; cases hc)
  | .error _, .ok _ => .isFalse (by intro hc; cases hc)
  | .error x, .error y =>
    if h : x = y then .isTrue (by rw [h]) else .isFalse (by intro hc; cases hc; exact h rfl)

/-- The continuation of one in-flight call. -/
inductive TaskPc
  | start
  | s3Wait
  | genWait
  | done (r : Except String CacheResult)
deriving Repr, DecidableEq

/-- A system of one shared cache instance, a generator-invocation counter,
and two concurrent callers. -/
structure ConcSys where
  st : CacheState
  genCount : Nat
  t0 : TaskPc
  t1 : TaskPc
deriving Repr, DecidableEq

/-- Advance one caller by one atomic segment of `getAudioWithCache`
(entry through the first await; S3-probe resumption; generator
resumption).  `genCount` increments exactly when the segment reaches the
`generatePollyAudio` call. -/
def taskStep (w : World) (text voiceId : String) (o : TtsOptions)
    (st : CacheState) (genCount : Nat) (pc : TaskPc) : CacheState × Nat × TaskPc :=
  let cacheKey := generateCacheKey text voiceId o
  match pc with
  | .start =>
    let st := bumpTotal st
    match checkMemoryCache w.now cacheKey st with
    | (some buf, st) =>
      ({ st with stats := { st.stats with memoryHits := st.stats.memoryHits + 1 } },
       genCount,
       .done (.ok { audioBuffer := buf, source := .memory, cacheKey := cacheKey,
                    fromCache := true }))
    | (none, st) =>
      match checkDiskCache w.now cacheKey st with
      | (some buf, st) =>
        let st := { st with stats := { st.stats with diskHits := st.stats.diskHits + 1 } }
        let st := storeInMemoryCache cacheKey buf w.now st
        (st, genCount,
         .done (.ok { audioBuffer := buf, source := .disk, cacheKey := cacheKey,
                      fromCache := true }))
      | (none, st) =>
        if st.s3Cache then (st, genCount, .s3Wait)
        else
          ({ st with stats := { st.stats with misses := st.stats.misses + 1 } },
           genCount + 1, .genWait)
  | .s3Wait =>
    let cacheKey := generateCacheKey text voiceId o
    match checkS3Cache w st.cacheExpiry cacheKey with
    | some buf =>
      let st := { st with stats := { st.stats with s3Hits := st.stats.s3Hits + 1 } }
      let st := storeInMemoryCache cacheKey buf w.now st
      let st := storeToDiskCache w cacheKey buf st
      (st, genCount,
       .done (.ok { audioBuffer := buf, source := .s3, cacheKey := cacheKey,
                    fromCache := true }))
    | none =>
      ({ st with stats := { st.stats with misses := st.stats.misses + 1 } },
       genCount + 1, .genWait)
  | .genWait =>
    match w.generator with
    | .error e => (st, genCount, .done (.error e))
    | .ok buf =>
      (storeInAllCaches w cacheKey buf st, genCount,
       .done (.ok { audioBuffer := buf, source := .generated, cacheKey := cacheKey,
                    fromCache := false }))
  | .done r => (st, genCount, .done r)

/-- Resume caller `false` (task 0) or `true` (task 1). -/
def sysStep (w : World) (text voiceId : String) (o : TtsOptions)
    (sys : ConcSys) (who : Bool) : ConcSys :=
  if who then
    let r := taskStep w text voiceId o sys.st sys.genCount sys.t1
    { sys with st := r.1, genCount := r.2.1, t1 := r.2.2 }
  else
    let r := taskStep w text voiceId o sys.st sys.genCount sys.t0
    { sys with st := r.1, genCount := r.2.1, t0 := r.2.2 }

/-- Run a schedule of event-loop resumptions. -/
def runSched (w : World) (text voiceId : String) (o : TtsOptions)
    (sys : ConcSys) (sched : List Bool) : ConcSys :=
  sched.foldl (sysStep w text voiceId o) sys

/-! ## Lemmas about the Map model -/

theorem mapGet_mapSet {α : Type} (k : String) (v : α) (m : List (String × α)) :
    mapGet k (mapSet k v m) = some v := by
  induction m with
  | nil => simp [mapSet, mapGet]
  | cons p rest ih =>
    by_cases hp : p.1 = k
    · simp [mapSet, mapGet, hp]
    · simp [mapSet, mapGet, hp, ih]

theorem length_mapSet_le {α : Type} (k : String) (v : α) (m : List (String × α)) :
    (mapSet k v m).length ≤ m.length + 1 := by
  induction m with
  | nil => simp [mapSet]
  | cons p rest ih =>
    by_cases hp : p.1 = k
    · simp [mapSet, hp]
    · simp only [mapSet, hp, if_false, List.length_cons]
      omega

theorem length_mapDelete_head {α : Type} (p : String × α) (rest : List (String × α)) :
    (mapDelete p.1 (p :: rest)).length ≤ rest.length := by
  simp [mapDelete]

/-! ## Lemmas about the tier operations -/

theorem checkMemoryCache_absent (now : Nat) (k : String) (st : CacheState)
    (h : mapGet k st.memoryCache = none) :
    checkMemoryCache now k st = (none, st) := by
  simp [checkMemoryCache, h]

theorem checkMemoryCache_hit (now : Nat) (k : String) (st : CacheState) (e : MemEntry)
    (h : mapGet k st.memoryCache = some e) (hage : now - e.timestamp < st.cacheExpiry) :
    checkMemoryCache now k st = (some e.data, st) := by
  simp [checkMemoryCache, h, hage]

theorem checkMemoryCache_expired (now : Nat) (k : String) (st : CacheState) (e : MemEntry)
    (h : mapGet k st.memoryCache = some e) (hage : st.cacheExpiry ≤ now - e.timestamp) :
    checkMemoryCache now k st = (none, { st with memoryCache := mapDelete k st.memoryCache }) := by
  simp [checkMemoryCache, h]
  omega

theorem checkDiskCache_absent (now : Nat) (k : String) (st : CacheState)
    (h : mapGet k st.diskMp3 = none) :
    checkDiskCache now k st = (none, st) := by
  cases hmeta : mapGet k st.diskMeta <;> simp [checkDiskCache, h, hmeta]

theorem checkDiskCache_hit (now : Nat) (k : String) (st : CacheState)
    (data : ByteBuf) (ts : Nat)
    (h1 : mapGet k st.diskMp3 = some data) (h2 : mapGet k st.diskMeta = some ts)
    (hage : now - ts ≤ st.cacheExpiry) :
    checkDiskCache now k st = (some data, st) := by
  simp [checkDiskCache, h1, h2]
  omega

theorem checkDiskCache_expired (now : Nat) (k : String) (st : CacheState)
    (data : ByteBuf) (ts : Nat)
    (h1 : mapGet k st.diskMp3 = some data) (h2 : mapGet k st.diskMeta = some ts)
    (hage : st.cacheExpiry < now - ts) :
    checkDiskCache now k st =
      (none, { st with diskMp3 := mapDelete k st.diskMp3,
                       diskMeta := mapDelete k st.diskMeta }) := by
  simp [checkDiskCache, h1, h2]
  omega

theorem s3CatchHandler_eq_none (e : S3ErrName) : s3CatchHandler e = none := by
  unfold s3CatchHandler
  split <;> rfl

theorem checkS3Cache_headError (w : World) (cacheExpiry : Nat) (k : String) (e : S3ErrName)
    (h : w.s3Head (s3ObjectKey k) = .error e) :
    checkS3Cache w cacheExpiry k = none := by
  simp [checkS3Cache, h, s3CatchHandler_eq_none]

theorem checkS3Cache_getError (w : World) (cacheExpiry : Nat) (k : String)
    (lm : Nat) (e : S3ErrName)
    (hh : w.s3Head (s3ObjectKey k) = .ok lm) (hg : w.s3Get (s3ObjectKey k) = .error e) :
    checkS3Cache w cacheExpiry k = none := by
  simp [checkS3Cache, hh, hg, s3CatchHandler_eq_none]

theorem checkS3Cache_expired (w : World) (cacheExpiry : Nat) (k : String) (lm : Nat)
    (hh : w.s3Head (s3ObjectKey k) = .ok lm) (hage : cacheExpiry < w.now - lm) :
    checkS3Cache w cacheExpiry k = none := by
  simp [checkS3Cache, hh]
  omega

theorem checkS3Cache_hit (w : World) (cacheExpiry : Nat) (k : String) (lm : Nat)
    (buf : ByteBuf)
    (hh : w.s3Head (s3ObjectKey k) = .ok lm) (hage : w.now - lm ≤ cacheExpiry)
    (hg : w.s3Get (s3ObjectKey k) = .ok buf) :
    checkS3Cache w cacheExpiry k = some buf := by
  simp [checkS3Cache, hh, hg]
  omega

theorem storeInMemoryCache_memoryCache_get (k : String) (buf : ByteBuf) (now : Nat)
    (st : CacheState) :
    mapGet k (storeInMemoryCache k buf now st).memoryCache
      = some { data := buf, timestamp := now } := by
  unfold storeInMemoryCache
  exact mapGet_mapSet k _ _

theorem storeInMemoryCache_fields (k : String) (buf : ByteBuf) (now : Nat) (st : CacheState) :
    (storeInMemoryCache k buf now st).maxMemoryCache = st.maxMemoryCache
    ∧ (storeInMemoryCache k buf now st).cacheExpiry = st.cacheExpiry := by
  exact ⟨rfl, rfl⟩

theorem storeToDiskCache_memoryCache (w : World) (k : String) (buf : ByteBuf)
    (st : CacheState) :
    (storeToDiskCache w k buf st).memoryCache = st.memoryCache := by
  unfold storeToDiskCache removeDiskCacheEntry
  split
  · split
    · split <;> rfl
    · rfl
  · rfl

theorem storeToDiskCache_diskMp3_get (w : World) (k : String) (buf : ByteBuf)
    (st : CacheState) (hw : w.diskWriteOk = true) :
    mapGet k (storeToDiskCache w k buf st).diskMp3 = some buf := by
  unfold storeToDiskCache
  rw [hw]
  simp only [if_true]
  split
  · split <;> exact mapGet_mapSet k _ _
  · exact mapGet_mapSet k _ _

/-! ## Memory-tier capacity invariant -/

theorem storeInMemoryCache_length_le (k : String) (buf : ByteBuf) (now : Nat)
    (st : CacheState) (hcap : 0 < st.maxMemoryCache)
    (hlen : st.memoryCache.length ≤ st.maxMemoryCache) :
    (storeInMemoryCache k buf now st).memoryCache.length ≤ st.maxMemoryCache := by
  have key : ∀ (m : List (String × MemEntry)) (cap : Nat), 0 < cap → m.length ≤ cap →
      (mapSet k { data := buf, timestamp := now }
        (if m.length ≥ cap then
          (match firstKey m with
           | some fk => mapDelete fk m
           | none => m)
         else m)).length ≤ cap := by
    intro m cap hc hl
    by_cases hge : m.length ≥ cap
    · match m with
      | [] => simp at hge; omega
      | p :: rest =>
        simp only [hge, if_true, firstKey, List.head?_cons, Option.map_some']
        have h1 := length_mapSet_le k ({ data := buf, timestamp := now } : MemEntry)
          (mapDelete p.1 (p :: rest))
        have h2 := length_mapDelete_head p rest
        simp only [List.length_cons] at hl
        have hge' : rest.length + 1 ≥ cap := by simpa using hge
        omega
    · simp only [hge, if_false]
      have h1 := length_mapSet_le k ({ data := buf, timestamp := now } : MemEntry) m
      omega
  exact key st.memoryCache st.maxMemoryCache hcap hlen

/-- Folding a list of `storeInMemoryCache` calls over a state. -/
def runMemPuts (ops : List (String × ByteBuf × Nat)) (st : CacheState) : CacheState :=
  ops.foldl (fun st op => storeInMemoryCache op.1 op.2.1 op.2.2 st) st

theorem runMemPuts_bound (ops : List (String × ByteBuf × Nat)) :
    ∀ st : CacheState, 0 < st.maxMemoryCache →
      st.memoryCache.length ≤ st.maxMemoryCache →
      (runMemPuts ops st).maxMemoryCache = st.maxMemoryCache
      ∧ (runMemPuts ops st).memoryCache.length ≤ st.maxMemoryCache := by
  induction ops with
  | nil => intro st _ h2; exact ⟨rfl, h2⟩
  | cons op rest ih =>
    intro st h1 h2
    have hmax : (storeInMemoryCache op.1 op.2.1 op.2.2 st).maxMemoryCache
        = st.maxMemoryCache := rfl
    have hstep := storeInMemoryCache_length_le op.1 op.2.1 op.2.2 st h1 h2
    have hrec := ih (storeInMemoryCache op.1 op.2.1 op.2.2 st)
      (by rw [hmax]; exact h1) (by rw [hmax]; exact hstep)
    constructor
    · calc (runMemPuts (op :: rest) st).maxMemoryCache
          = (runMemPuts rest (storeInMemoryCache op.1 op.2.1 op.2.2 st)).maxMemoryCache := rfl
        _ = st.maxMemoryCache := by rw [hrec.1, hmax]
    · calc (runMemPuts (op :: rest) st).memoryCache.length
          = (runMemPuts rest (storeInMemoryCache op.1 op.2.1 op.2.2 st)).memoryCache.length := rfl
        _ ≤ _ := by rw [hmax] at hrec; exact hrec.2

/-! ## Lookup-path lemmas -/

theorem c7_disk_case (w : World) (env : Env) (text voiceId : String) (o : TtsOptions)
    (st : CacheState) (buf : ByteBuf) (ts : Nat)
    (hmem : mapGet (generateCacheKey text voiceId o) st.memoryCache = none)
    (hd1 : mapGet (generateCacheKey text voiceId o) st.diskMp3 = some buf)
    (hd2 : mapGet (generateCacheKey text voiceId o) st.diskMeta = some ts)
    (hage : w.now - ts ≤ st.cacheExpiry) :
    (getAudioWithCache w env text voiceId o st).1
        = .ok { audioBuffer := buf, source := .disk,
                cacheKey := generateCacheKey text voiceId o, fromCache := true }
      ∧ ∀ now2 : Nat, now2 - w.now < st.cacheExpiry →
          (checkMemoryCache now2 (generateCacheKey text voiceId o)
            (getAudioWithCache w env text voiceId o st).2.1).1 = some buf := by
  have hm : checkMemoryCache w.now (generateCacheKey text voiceId o) (bumpTotal st)
      = (none, bumpTotal st) :=
    checkMemoryCache_absent _ _ _ hmem
  have hd : checkDiskCache w.now (generateCacheKey text voiceId o) (bumpTotal st)
      = (some buf, bumpTotal st) :=
    checkDiskCache_hit _ _ _ _ _ hd1 hd2 hage
  simp only [getAudioWithCache, hm, hd]
  constructor
  · trivial
  · intro now2 h2
    have hget := storeInMemoryCache_memoryCache_get (generateCacheKey text voiceId o) buf w.now
      { bumpTotal st with stats := { (bumpTotal st).stats with diskHits := (bumpTotal st).stats.diskHits + 1 } }
    rw [checkMemoryCache_hit now2 (generateCacheKey text voiceId o) _ _ hget h2]

theorem storeToDiskCache_cacheExpiry (w : World) (k : String) (buf : ByteBuf)
    (st : CacheState) :
    (storeToDiskCache w k buf st).cacheExpiry = st.cacheExpiry := by
  unfold storeToDiskCache removeDiskCacheEntry
  split
  · split
    · split <;> rfl
    · rfl
  · rfl

theorem checkMemoryCache_fst_hit (now : Nat) (k : String) (st : CacheState) (e : MemEntry)
    (h : mapGet k st.memoryCache = some e) (hage : now - e.timestamp < st.cacheExpiry) :
    (checkMemoryCache now k st).1 = some e.data := by
  rw [checkMemoryCache_hit now k st e h hage]

theorem c7_s3_case (w : World) (env : Env) (text voiceId : String) (o : TtsOptions)
    (st : CacheState) (lm : Nat) (buf : ByteBuf)
    (hmem : mapGet (generateCacheKey text voiceId o) st.memoryCache = none)
    (hd1 : mapGet (generateCacheKey text voiceId o) st.diskMp3 = none)
    (hs3on : st.s3Cache = true)
    (hh : w.s3Head (s3ObjectKey (generateCacheKey text voiceId o)) = .ok lm)
    (hage : w.now - lm ≤ st.cacheExpiry)
    (hg : w.s3Get (s3ObjectKey (generateCacheKey text voiceId o)) = .ok buf) :
    (getAudioWithCache w env text voiceId o st).1
        = .ok { audioBuffer := buf, source := .s3,
                cacheKey := generateCacheKey text voiceId o, fromCache := true }
      ∧ (∀ now2 : Nat, now2 - w.now < st.cacheExpiry →
          (checkMemoryCache now2 (generateCacheKey text voiceId o)
            (getAudioWithCache w env text voiceId o st).2.1).1 = some buf)
      ∧ (w.diskWriteOk = true →
          mapGet (generateCacheKey text voiceId o)
            (getAudioWithCache w env text voiceId o st).2.1.diskMp3 = some buf) := by
  have hm : checkMemoryCache w.now (generateCacheKey text voiceId o) (bumpTotal st)
      = (none, bumpTotal st) :=
    checkMemoryCache_absent _ _ _ hmem
  have hdisk : checkDiskCache w.now (generateCacheKey text voiceId o) (bumpTotal st)
      = (none, bumpTotal st) :=
    checkDiskCache_absent _ _ _ hd1
  have hs3on2 : (bumpTotal st).s3Cache = true := hs3on
  have hs3 : checkS3Cache w (bumpTotal st).cacheExpiry (generateCacheKey text voiceId o)
      = some buf :=
    checkS3Cache_hit _ _ _ _ _ hh hage hg
  simp only [getAudioWithCache, hm, hdisk, hs3on2, if_true, hs3]
  refine ⟨trivial, ?_, ?_⟩
  · intro now2 h2
    refine checkMemoryCache_fst_hit now2 _ _ { data := buf, timestamp := w.now } ?_ ?_
    · rw [storeToDiskCache_memoryCache]
      exact storeInMemoryCache_memoryCache_get _ _ _ _
    · rw [storeToDiskCache_cacheExpiry]
      exact h2
  · intro hw
    exact storeToDiskCache_diskMp3_get _ _ _ _ hw

theorem getAudioWithCache_allMiss_genOk (w : World) (env : Env) (text voiceId : String)
    (o : TtsOptions) (st : CacheState) (e : S3ErrName) (buf : ByteBuf)
    (hmem : mapGet (generateCacheKey text voiceId o) st.memoryCache = none)
    (hd1 : mapGet (generateCacheKey text voiceId o) st.diskMp3 = none)
    (hs3on : st.s3Cache = true)
    (hh : w.s3Head (s3ObjectKey (generateCacheKey text voiceId o)) = .error e)
    (hgen : w.generator = .ok buf) :
    (getAudioWithCache w env text voiceId o st).1
      = .ok { audioBuffer := buf, source := .generated,
              cacheKey := generateCacheKey text voiceId o, fromCache := false }
    ∧ (getAudioWithCache w env text voiceId o st).2.2
      = [Ev.memProbe, Ev.diskProbe, Ev.s3Probe, Ev.genCall] := by
  have hm : checkMemoryCache w.now (generateCacheKey text voiceId o) (bumpTotal st)
      = (none, bumpTotal st) := checkMemoryCache_absent _ _ _ hmem
  have hdisk : checkDiskCache w.now (generateCacheKey text voiceId o) (bumpTotal st)
      = (none, bumpTotal st) := checkDiskCache_absent _ _ _ hd1
  have hs3on2 : (bumpTotal st).s3Cache = true := hs3on
  have hs3 : checkS3Cache w (bumpTotal st).cacheExpiry (generateCacheKey text voiceId o)
      = none := checkS3Cache_headError _ _ _ _ hh
  simp only [getAudioWithCache, hm, hdisk, hs3on2, if_true, hs3, hgen]
  exact ⟨trivial, rfl⟩

theorem getAudioWithCache_allMiss_genErr (w : World) (env : Env) (text voiceId : String)
    (o : TtsOptions) (st : CacheState) (e : S3ErrName) (msg : String)
    (hmem : mapGet (generateCacheKey text voiceId o) st.memoryCache = none)
    (hd1 : mapGet (generateCacheKey text voiceId o) st.diskMp3 = none)
    (hs3on : st.s3Cache = true)
    (hh : w.s3Head (s3ObjectKey (generateCacheKey text voiceId o)) = .error e)
    (hgen : w.generator = .error msg) :
    (getAudioWithCache w env text voiceId o st).1 = .error msg := by
  have hm : checkMemoryCache w.now (generateCacheKey text voiceId o) (bumpTotal st)
      = (none, bumpTotal st) := checkMemoryCache_absent _ _ _ hmem
  have hdisk : checkDiskCache w.now (generateCacheKey text voiceId o) (bumpTotal st)
      = (none, bumpTotal st) := checkDiskCache_absent _ _ _ hd1
  have hs3on2 : (bumpTotal st).s3Cache = true := hs3on
  have hs3 : checkS3Cache w (bumpTotal st).cacheExpiry (generateCacheKey text voiceId o)
      = none := checkS3Cache_headError _ _ _ _ hh
  simp only [getAudioWithCache, hm, hdisk, hs3on2, if_true, hs3, hgen]

/-! ## Key-derivation lemmas -/

theorem md5Bytes_length (msg : List Nat) : (md5Bytes msg).length = 16 := by
  simp [md5Bytes, wordLE]

theorem foldr_hex_length (l : List Nat) :
    (l.foldr (fun b acc => hexDigit (b / 16) :: hexDigit (b % 16) :: acc) []).length
      = 2 * l.length := by
  induction l with
  | nil => simp
  | cons b rest ih =>
    simp only [List.foldr_cons, List.length_cons, ih]
    ring

theorem md5Hex_length (msg : List Nat) : (md5Hex msg).length = 32 := by
  unfold md5Hex
  have h : ∀ cs : List Char, (String.mk cs).length = cs.length := fun cs => rfl
  rw [h, foldr_hex_length, md5Bytes_length]

/-! ## The claims -/

set_option maxRecDepth 200000 in
/-- C4: `generateCacheKey` is a pure deterministic function of
(text, voiceId, format, engine): any two texts equal after trim+lowercase
give the identical key (determinism is the reflexive instance); every key is
the fixed-length 32-hex-character rendering of the 16-byte (128-bit) MD5
digest; the empty text is accepted and yields a key distinct from the key of
a different text such as "hello". -/
theorem c4_cache_key_derivation :
    (∀ t1 t2 v : String, ∀ o : TtsOptions,
        normalizeText t1 = normalizeText t2 →
        generateCacheKey t1 v o = generateCacheKey t2 v o)
    ∧ (∀ t v : String, ∀ o : TtsOptions,
        (generateCacheKey t v o).length = 32
        ∧ (md5Bytes (utf8Encode (cacheKeyData t v o))).length = 16)
    ∧ generateCacheKey "" "Joanna" {} ≠ generateCacheKey "hello" "Joanna" {} := by
  refine ⟨?_, ?_, ?_⟩
  · intro t1 t2 v o h
    unfold generateCacheKey cacheKeyData
    rw [h]
  · intro t v o
    exact ⟨md5Hex_length _, md5Bytes_length _⟩
  · decide

set_option maxRecDepth 200000 in
/-- C4 witness: the normalization implication and the length fact at
concrete inputs. -/
theorem c4_cache_key_derivation_witness :
    normalizeText "  HELLO " = normalizeText "hello"
    ∧ generateCacheKey "  HELLO " "Joanna" {} = generateCacheKey "hello" "Joanna" {}
    ∧ (generateCacheKey "hello" "Joanna" {}).length = 32 :=
  ⟨by decide, c4_cache_key_derivation.1 "  HELLO " "hello" "Joanna" {} (by decide),
   (c4_cache_key_derivation.2.1 "hello" "Joanna" {}).1⟩

/-- C5: starting from the empty memory tier, any sequence of
`storeInMemoryCache` calls leaves the occupancy at or below the configured
capacity — for the source's configuration (capacity 50) and for any
positive capacity. -/
theorem c5_memory_occupancy_bound :
    (∀ ops : List (String × ByteBuf × Nat),
        (runMemPuts ops initialCacheState).memoryCache.length
          ≤ initialCacheState.maxMemoryCache)
    ∧ (∀ cap : Nat, 0 < cap → ∀ ops : List (String × ByteBuf × Nat),
        (runMemPuts ops
            { initialCacheState with maxMemoryCache := cap }).memoryCache.length
          ≤ cap) := by
  constructor
  · intro ops
    exact (runMemPuts_bound ops initialCacheState (by decide) (by decide)).2
  · intro cap hcap ops
    exact (runMemPuts_bound ops { initialCacheState with maxMemoryCache := cap }
      hcap (Nat.zero_le _)).2

/-- C5 witness: three puts into a capacity-2 tier stay within bound. -/
theorem c5_memory_occupancy_bound_witness :
    (0 : Nat) < 2
    ∧ (runMemPuts [("A", [1], 0), ("B", [2], 0), ("C", [3], 1)]
        { initialCacheState with maxMemoryCache := 2 }).memoryCache.length ≤ 2 :=
  ⟨by decide,
   c5_memory_occupancy_bound.2 2 (by decide) [("A", [1], 0), ("B", [2], 0), ("C", [3], 1)]⟩

/-- The spec's LRU scenario on the code: capacity-2 memory tier; put A,
put B, get A (a hit), put C. -/
def lruScenario : CacheState :=
  storeInMemoryCache "C" [3] 1
    (checkMemoryCache 1 "A"
      (storeInMemoryCache "B" [2] 0
        (storeInMemoryCache "A" [1] 0
          { initialCacheState with maxMemoryCache := 2 }))).2

/-- C2: the code comments `storeInMemoryCache` with "LRU eviction" but
evicts the first key in Map iteration order (earliest inserted), and
`checkMemoryCache` never refreshes an entry's position on a hit.  In the
spec's capacity-2 scenario (put A, put B, get A hit, put C) the code evicts
A — the most recently used entry — while B and C remain, contradicting the
claimed strict-LRU behaviour (B evicted, A and C remain). -/
theorem c2_scenario_code_evicts_first_inserted :
    (checkMemoryCache 1 "A"
        (storeInMemoryCache "B" [2] 0
          (storeInMemoryCache "A" [1] 0
            { initialCacheState with maxMemoryCache := 2 }))).1 = some [1]
    ∧ mapGet "A" lruScenario.memoryCache = none
    ∧ mapGet "B" lruScenario.memoryCache = some { data := [2], timestamp := 0 }
    ∧ mapGet "C" lruScenario.memoryCache = some { data := [3], timestamp := 1 } :=
  ⟨rfl, rfl, rfl, rfl⟩

/-- Disk tier seeded with an entry whose age will equal the TTL exactly. -/
def diskBoundaryState : CacheState :=
  { initialCacheState with diskMp3 := [("k", [9])], diskMeta := [("k", 0)] }

/-- Remote tier whose object's age equals the TTL exactly. -/
def s3BoundaryWorld : World :=
  { now := initialCacheState.cacheExpiry, s3Head := fun _ => .ok 0,
    s3Get := fun _ => .ok [9], s3PutOk := true, diskWriteOk := true,
    generator := .error "unused" }

/-- C6 counterexample: an entry whose age equals the TTL (age not less than
TTL) is claimed to be a miss in every tier, but the Disk and Remote tiers
use the strict comparison `age > TTL` and return a hit at age = TTL. -/
theorem c6_boundary_age_counterexample :
    (checkDiskCache initialCacheState.cacheExpiry "k" diskBoundaryState).1 = some [9]
    ∧ checkS3Cache s3BoundaryWorld initialCacheState.cacheExpiry "k" = some [9] :=
  ⟨rfl, rfl⟩

/-- C6 amended: the Memory tier treats age ≥ TTL as a miss and removes the
expired entry on that get; the Disk and Remote tiers treat an entry as
expired only when age > TTL strictly (a get at age exactly TTL still hits);
an expired disk entry is unlinked by the get, while the expired remote
object is reported as a miss by a read-only check that deletes nothing. -/
theorem c6_lazy_expiry_amended :
    (∀ (now : Nat) (k : String) (st : CacheState) (e : MemEntry),
        mapGet k st.memoryCache = some e → st.cacheExpiry ≤ now - e.timestamp →
        checkMemoryCache now k st
          = (none, { st with memoryCache := mapDelete k st.memoryCache }))
    ∧ (∀ (now : Nat) (k : String) (st : CacheState) (e : MemEntry),
        mapGet k st.memoryCache = some e → now - e.timestamp < st.cacheExpiry →
        checkMemoryCache now k st = (some e.data, st))
    ∧ (∀ (now : Nat) (k : String) (st : CacheState) (data : ByteBuf) (ts : Nat),
        mapGet k st.diskMp3 = some data → mapGet k st.diskMeta = some ts →
        st.cacheExpiry < now - ts →
        checkDiskCache now k st
          = (none, { st with diskMp3 := mapDelete k st.diskMp3,
                             diskMeta := mapDelete k st.diskMeta }))
    ∧ (∀ (now : Nat) (k : String) (st : CacheState) (data : ByteBuf) (ts : Nat),
        mapGet k st.diskMp3 = some data → mapGet k st.diskMeta = some ts →
        now - ts ≤ st.cacheExpiry →
        checkDiskCache now k st = (some data, st))
    ∧ (∀ (w : World) (cacheExpiry : Nat) (k : String) (lm : Nat),
        w.s3Head (s3ObjectKey k) = .ok lm → cacheExpiry < w.now - lm →
        checkS3Cache w cacheExpiry k = none)
    ∧ (∀ (w : World) (cacheExpiry : Nat) (k : String) (lm : Nat) (buf : ByteBuf),
        w.s3Head (s3ObjectKey k) = .ok lm → w.now - lm ≤ cacheExpiry →
        w.s3Get (s3ObjectKey k) = .ok buf →
        checkS3Cache w cacheExpiry k = some buf) :=
  ⟨fun now k st e h hage => checkMemoryCache_expired now k st e h hage,
   fun now k st e h hage => checkMemoryCache_hit now k st e h hage,
   fun now k st data ts h1 h2 hage => checkDiskCache_expired now k st data ts h1 h2 hage,
   fun now k st data ts h1 h2 hage => checkDiskCache_hit now k st data ts h1 h2 hage,
   fun w ce k lm hh hage => checkS3Cache_expired w ce k lm hh hage,
   fun w ce k lm buf hh hage hg => checkS3Cache_hit w ce k lm buf hh hage hg⟩

/-- Memory tier seeded with an entry that will be expired. -/
def memExpiredState : CacheState :=
  { initialCacheState with memoryCache := [("k", { data := [9], timestamp := 0 })] }

/-- Remote tier whose object's age strictly exceeds the TTL. -/
def s3ExpiredWorld : World :=
  { now := initialCacheState.cacheExpiry + 1, s3Head := fun _ => .ok 0,
    s3Get := fun _ => .ok [9], s3PutOk := true, diskWriteOk := true,
    generator := .error "unused" }

/-- C6 witness: the memory tier misses and deletes at age = TTL, the disk
tier still hits at age = TTL, and the remote tier misses at age = TTL + 1. -/
theorem c6_lazy_expiry_amended_witness :
    checkMemoryCache 86400000 "k" memExpiredState
      = (none, { memExpiredState with
                 memoryCache := mapDelete "k" memExpiredState.memoryCache })
    ∧ checkDiskCache 86400000 "k" diskBoundaryState = (some [9], diskBoundaryState)
    ∧ checkS3Cache s3ExpiredWorld 86400000 "k" = none :=
  ⟨c6_lazy_expiry_amended.1 86400000 "k" memExpiredState
      { data := [9], timestamp := 0 } rfl (by decide),
   c6_lazy_expiry_amended.2.2.2.1 86400000 "k" diskBoundaryState [9] 0 rfl rfl (by decide),
   c6_lazy_expiry_amended.2.2.2.2.1 s3ExpiredWorld 86400000 "k" 0 rfl (by decide)⟩

/-- C3 counterexample: four consecutive probe failures starting from a
healthy dependency invoke `triggerFailover` twice (on the 3rd and the 4th
failing check), not exactly once on the transition into Failed. -/
theorem c3_failover_retriggered_counterexample :
    (runHealthChecks 3 [false, false, false, false] initialDepHealth).2 = 2
    ∧ ¬ ((runHealthChecks 3 [false, false, false, false] initialDepHealth).2 = 1) :=
  ⟨rfl, by decide⟩

/-- C3 amended: every probe failure increments the consecutive-failure
counter; while the incremented counter is below the threshold the status is
Degraded and no failover fires; at or above the threshold the status is
Failed and the failover action fires on that check — and again on every
subsequent consecutive failure, not only on the transition into Failed; a
single success resets the counter to 0 and the status to Healthy with no
failover. -/
theorem c3_health_state_machine_amended :
    (∀ (st : DepHealth) (threshold : Nat),
        (healthCheckStep threshold false st).1.consecutiveFailures
          = st.consecutiveFailures + 1)
    ∧ (∀ (st : DepHealth) (threshold : Nat), st.consecutiveFailures + 1 < threshold →
        healthCheckStep threshold false st
          = ({ consecutiveFailures := st.consecutiveFailures + 1,
               status := .degraded }, false))
    ∧ (∀ (st : DepHealth) (threshold : Nat), threshold ≤ st.consecutiveFailures + 1 →
        healthCheckStep threshold false st
          = ({ consecutiveFailures := st.consecutiveFailures + 1,
               status := .failed }, true))
    ∧ (∀ (st : DepHealth) (threshold : Nat),
        healthCheckStep threshold true st
          = ({ consecutiveFailures := 0, status := .healthy }, false)) := by
  refine ⟨?_, ?_, ?_, ?_⟩
  · intro st t
    unfold healthCheckStep
    simp only [Bool.false_eq_true, if_false]
    split <;> rfl
  · intro st t h
    unfold healthCheckStep
    simp only [Bool.false_eq_true, if_false]
    rw [if_neg (by omega)]
  · intro st t h
    unfold healthCheckStep
    simp only [Bool.false_eq_true, if_false]
    rw [if_pos (by omega)]
  · intro st t
    rfl

/-- C3 witness: the state machine at threshold 3 — second failure degrades,
third fails and triggers, fourth triggers again, one success heals. -/
theorem c3_health_state_machine_amended_witness :
    healthCheckStep 3 false { consecutiveFailures := 1, status := .degraded }
      = ({ consecutiveFailures := 2, status := .degraded }, false)
    ∧ healthCheckStep 3 false { consecutiveFailures := 2, status := .degraded }
      = ({ consecutiveFailures := 3, status := .failed }, true)
    ∧ healthCheckStep 3 false { consecutiveFailures := 3, status := .failed }
      = ({ consecutiveFailures := 4, status := .failed }, true)
    ∧ healthCheckStep 3 true { consecutiveFailures := 3, status := .failed }
      = ({ consecutiveFailures := 0, status := .healthy }, false) :=
  ⟨c3_health_state_machine_amended.2.1
      { consecutiveFailures := 1, status := .degraded } 3 (by decide),
   c3_health_state_machine_amended.2.2.1
      { consecutiveFailures := 2, status := .degraded } 3 (by decide),
   c3_health_state_machine_amended.2.2.1
      { consecutiveFailures := 3, status := .failed } 3 (by decide),
   c3_health_state_machine_amended.2.2.2
      { consecutiveFailures := 3, status := .failed } 3⟩

/-- C7: a hit at a tier slower than Memory promotes the payload into every
faster tier — a Disk hit is stored into Memory, a Remote hit is stored into
Memory and (when the filesystem cooperates) Disk — so the key is
retrievable from the Memory tier on the next get; a failing disk write
during promotion never changes the caller's successful result. -/
theorem c7_promotion_on_slow_tier_hit :
    (∀ (w : World) (env : Env) (text voiceId : String) (o : TtsOptions)
        (st : CacheState) (buf : ByteBuf) (ts : Nat),
        mapGet (generateCacheKey text voiceId o) st.memoryCache = none →
        mapGet (generateCacheKey text voiceId o) st.diskMp3 = some buf →
        mapGet (generateCacheKey text voiceId o) st.diskMeta = some ts →
        w.now - ts ≤ st.cacheExpiry →
        (getAudioWithCache w env text voiceId o st).1
            = .ok { audioBuffer := buf, source := .disk,
                    cacheKey := generateCacheKey text voiceId o, fromCache := true }
          ∧ ∀ now2 : Nat, now2 - w.now < st.cacheExpiry →
              (checkMemoryCache now2 (generateCacheKey text voiceId o)
                (getAudioWithCache w env text voiceId o st).2.1).1 = some buf)
    ∧ (∀ (w : World) (env : Env) (text voiceId : String) (o : TtsOptions)
        (st : CacheState) (lm : Nat) (buf : ByteBuf),
        mapGet (generateCacheKey text voiceId o) st.memoryCache = none →
        mapGet (generateCacheKey text voiceId o) st.diskMp3 = none →
        st.s3Cache = true →
        w.s3Head (s3ObjectKey (generateCacheKey text voiceId o)) = .ok lm →
        w.now - lm ≤ st.cacheExpiry →
        w.s3Get (s3ObjectKey (generateCacheKey text voiceId o)) = .ok buf →
        (getAudioWithCache w env text voiceId o st).1
            = .ok { audioBuffer := buf, source := .s3,
                    cacheKey := generateCacheKey text voiceId o, fromCache := true }
          ∧ (∀ now2 : Nat, now2 - w.now < st.cacheExpiry →
              (checkMemoryCache now2 (generateCacheKey text voiceId o)
                (getAudioWithCache w env text voiceId o st).2.1).1 = some buf)
          ∧ (w.diskWriteOk = true →
              mapGet (generateCacheKey text voiceId o)
                (getAudioWithCache w env text voiceId o st).2.1.diskMp3 = some buf)) :=
  ⟨fun w env text voiceId o st buf ts hmem hd1 hd2 hage =>
      c7_disk_case w env text voiceId o st buf ts hmem hd1 hd2 hage,
   fun w env text voiceId o st lm buf hmem hd1 hs3on hh hage hg =>
      c7_s3_case w env text voiceId o st lm buf hmem hd1 hs3on hh hage hg⟩

/-- Disk tier seeded with the key of text "a" for the promotion witness. -/
def stDiskSeed : CacheState :=
  { initialCacheState with
    diskMp3 := [(generateCacheKey "a" "Joanna" {}, [1, 2])],
    diskMeta := [(generateCacheKey "a" "Joanna" {}, 0)] }

/-- World for the disk-promotion witness: remote misses, generator down. -/
def wPromote : World :=
  { now := 5, s3Head := fun _ => .error "NotFound", s3Get := fun _ => .error "NotFound",
    s3PutOk := true, diskWriteOk := true, generator := .error "down" }

/-- World for the remote-promotion witness with a failing disk write. -/
def wS3Hit : World :=
  { now := 5, s3Head := fun _ => .ok 0, s3Get := fun _ => .ok [3, 4],
    s3PutOk := true, diskWriteOk := false, generator := .error "down" }

/-- World for the remote-promotion witness with a working disk write. -/
def wS3HitDiskOk : World :=
  { wS3Hit with diskWriteOk := true }

/-- C7 witness: a disk hit promoted to memory; a remote hit whose result
survives the failing disk write and is promoted to memory; and the disk
promotion when the write succeeds. -/
theorem c7_promotion_on_slow_tier_hit_witness :
    ((getAudioWithCache wPromote {} "a" "Joanna" {} stDiskSeed).1
        = .ok { audioBuffer := [1, 2], source := .disk,
                cacheKey := generateCacheKey "a" "Joanna" {}, fromCache := true })
    ∧ ((checkMemoryCache 6 (generateCacheKey "a" "Joanna" {})
          (getAudioWithCache wPromote {} "a" "Joanna" {} stDiskSeed).2.1).1 = some [1, 2])
    ∧ ((getAudioWithCache wS3Hit {} "b" "Joanna" {} initialCacheState).1
        = .ok { audioBuffer := [3, 4], source := .s3,
                cacheKey := generateCacheKey "b" "Joanna" {}, fromCache := true })
    ∧ ((checkMemoryCache 6 (generateCacheKey "b" "Joanna" {})
          (getAudioWithCache wS3Hit {} "b" "Joanna" {} initialCacheState).2.1).1
        = some [3, 4])
    ∧ (mapGet (generateCacheKey "b" "Joanna" {})
          (getAudioWithCache wS3HitDiskOk {} "b" "Joanna" {}
            initialCacheState).2.1.diskMp3 = some [3, 4]) :=
  have hA := c7_promotion_on_slow_tier_hit.1 wPromote {} "a" "Joanna" {} stDiskSeed
    [1, 2] 0 rfl (by simp [stDiskSeed, mapGet]) (by simp [stDiskSeed, mapGet]) (by decide)
  have hB := c7_promotion_on_slow_tier_hit.2 wS3Hit {} "b" "Joanna" {} initialCacheState
    0 [3, 4] rfl rfl rfl rfl (by decide) rfl
  have hC := c7_promotion_on_slow_tier_hit.2 wS3HitDiskOk {} "b" "Joanna" {}
    initialCacheState 0 [3, 4] rfl rfl rfl rfl (by decide) rfl
  ⟨hA.1, hA.2 6 (by decide), hB.1, hB.2.1 6 (by decide), hC.2.2 rfl⟩

/-- C8: a call that already holds a valid payload never fails because a
secondary write-through target fails — the generated-path result is
successful for every world, whatever `diskWriteOk` and `s3PutOk` are; an
S3 hit stays successful under a failing disk write; and the call returns
an error exactly when all tiers miss and generation itself fails. -/
theorem c8_write_through_failures_absorbed :
    (∀ (w : World) (env : Env) (text voiceId : String) (o : TtsOptions)
        (st : CacheState) (e : S3ErrName) (buf : ByteBuf),
        mapGet (generateCacheKey text voiceId o) st.memoryCache = none →
        mapGet (generateCacheKey text voiceId o) st.diskMp3 = none →
        st.s3Cache = true →
        w.s3Head (s3ObjectKey (generateCacheKey text voiceId o)) = .error e →
        w.generator = .ok buf →
        (getAudioWithCache w env text voiceId o st).1
          = .ok { audioBuffer := buf, source := .generated,
                  cacheKey := generateCacheKey text voiceId o, fromCache := false })
    ∧ (∀ (w : World) (env : Env) (text voiceId : String) (o : TtsOptions)
        (st : CacheState) (lm : Nat) (buf : ByteBuf),
        mapGet (generateCacheKey text voiceId o) st.memoryCache = none →
        mapGet (generateCacheKey text voiceId o) st.diskMp3 = none →
        st.s3Cache = true →
        w.s3Head (s3ObjectKey (generateCacheKey text voiceId o)) = .ok lm →
        w.now - lm ≤ st.cacheExpiry →
        w.s3Get (s3ObjectKey (generateCacheKey text voiceId o)) = .ok buf →
        w.diskWriteOk = false →
        (getAudioWithCache w env text voiceId o st).1
          = .ok { audioBuffer := buf, source := .s3,
                  cacheKey := generateCacheKey text voiceId o, fromCache := true })
    ∧ (∀ (w : World) (env : Env) (text voiceId : String) (o : TtsOptions)
        (st : CacheState) (e : S3ErrName) (msg : String),
        mapGet (generateCacheKey text voiceId o) st.memoryCache = none →
        mapGet (generateCacheKey text voiceId o) st.diskMp3 = none →
        st.s3Cache = true →
        w.s3Head (s3ObjectKey (generateCacheKey text voiceId o)) = .error e →
        w.generator = .error msg →
        (getAudioWithCache w env text voiceId o st).1 = .error msg) :=
  ⟨fun w env text voiceId o st e buf hmem hd1 hs3on hh hgen =>
      (getAudioWithCache_allMiss_genOk w env text voiceId o st e buf
        hmem hd1 hs3on hh hgen).1,
   fun w env text voiceId o st lm buf hmem hd1 hs3on hh hage hg _ =>
      (c7_s3_case w env text voiceId o st lm buf hmem hd1 hs3on hh hage hg).1,
   fun w env text voiceId o st e msg hmem hd1 hs3on hh hgen =>
      getAudioWithCache_allMiss_genErr w env text voiceId o st e msg
        hmem hd1 hs3on hh hgen⟩

/-- World where both secondary write-through targets fail but generation
succeeds. -/
def wGenOkWritesFail : World :=
  { now := 0, s3Head := fun _ => .error "ServiceUnavailable",
    s3Get := fun _ => .error "ServiceUnavailable",
    s3PutOk := false, diskWriteOk := false, generator := .ok [9] }

/-- World where all tiers miss and generation fails. -/
def wGenErr : World :=
  { wGenOkWritesFail with generator := .error "polly down" }

/-- C8 witness: generation succeeds although both the disk write and the
remote write fail; an S3 hit survives a failing disk write; and the only
failing case is generation failure with all tiers missing. -/
theorem c8_write_through_failures_absorbed_witness :
    ((getAudioWithCache wGenOkWritesFail {} "c" "Joanna" {} initialCacheState).1
        = .ok { audioBuffer := [9], source := .generated,
                cacheKey := generateCacheKey "c" "Joanna" {}, fromCache := false })
    ∧ ((getAudioWithCache wS3Hit {} "b" "Joanna" {} initialCacheState).1
        = .ok { audioBuffer := [3, 4], source := .s3,
                cacheKey := generateCacheKey "b" "Joanna" {}, fromCache := true })
    ∧ ((getAudioWithCache wGenErr {} "c" "Joanna" {} initialCacheState).1
        = .error "polly down") :=
  ⟨c8_write_through_failures_absorbed.1 wGenOkWritesFail {} "c" "Joanna" {}
      initialCacheState "ServiceUnavailable" [9] rfl rfl rfl rfl rfl,
   c8_write_through_failures_absorbed.2.1 wS3Hit {} "b" "Joanna" {}
      initialCacheState 0 [3, 4] rfl rfl rfl rfl (by decide) rfl rfl,
   c8_write_through_failures_absorbed.2.2 wGenErr {} "c" "Joanna" {}
      initialCacheState "ServiceUnavailable" "polly down" rfl rfl rfl rfl rfl⟩

/-- C10: every error of the remote tier during a lookup — the head call or
the object fetch, with any error name, not only NoSuchKey/NotFound — is
caught inside `checkS3Cache` and becomes a miss, and a caller of
`getAudioWithCache` then receives the generated result, never the remote
read error. -/
theorem c10_s3_errors_become_misses :
    (∀ (w : World) (cacheExpiry : Nat) (k : String) (e : S3ErrName),
        w.s3Head (s3ObjectKey k) = .error e → checkS3Cache w cacheExpiry k = none)
    ∧ (∀ (w : World) (cacheExpiry : Nat) (k : String) (lm : Nat) (e : S3ErrName),
        w.s3Head (s3ObjectKey k) = .ok lm → w.s3Get (s3ObjectKey k) = .error e →
        checkS3Cache w cacheExpiry k = none)
    ∧ (∀ (w : World) (env : Env) (text voiceId : String) (o : TtsOptions)
        (e : S3ErrName) (buf : ByteBuf),
        w.s3Head (s3ObjectKey (generateCacheKey text voiceId o)) = .error e →
        w.generator = .ok buf →
        (getAudioWithCache w env text voiceId o initialCacheState).1
          = .ok { audioBuffer := buf, source := .generated,
                  cacheKey := generateCacheKey text voiceId o, fromCache := false }) :=
  ⟨fun w ce k e hh => checkS3Cache_headError w ce k e hh,
   fun w ce k lm e hh hg => checkS3Cache_getError w ce k lm e hh hg,
   fun w env text voiceId o e buf hh hgen =>
      (getAudioWithCache_allMiss_genOk w env text voiceId o initialCacheState e buf
        rfl rfl rfl hh hgen).1⟩

/-- World whose remote head calls fail with an arbitrary non-NotFound
error. -/
def wS3InternalErr : World :=
  { now := 0, s3Head := fun _ => .error "InternalError",
    s3Get := fun _ => .error "InternalError",
    s3PutOk := true, diskWriteOk := true, generator := .ok [8] }

/-- World whose remote head succeeds but whose object fetch fails. -/
def wS3GetErr : World :=
  { wS3InternalErr with s3Head := fun _ => .ok 0 }

/-- C10 witness: an InternalError on head and on fetch both become misses,
and the lookup then falls through to generation successfully. -/
theorem c10_s3_errors_become_misses_witness :
    checkS3Cache wS3InternalErr 100 "k" = none
    ∧ checkS3Cache wS3GetErr 100 "k" = none
    ∧ (getAudioWithCache wS3InternalErr {} "x" "Joanna" {} initialCacheState).1
        = .ok { audioBuffer := [8], source := .generated,
                cacheKey := generateCacheKey "x" "Joanna" {}, fromCache := false } :=
  ⟨c10_s3_errors_become_misses.1 wS3InternalErr 100 "k" "InternalError" rfl,
   c10_s3_errors_become_misses.2.1 wS3GetErr 100 "k" 0 "InternalError" rfl rfl,
   c10_s3_errors_become_misses.2.2 wS3InternalErr {} "x" "Joanna" {}
      "InternalError" [8] rfl rfl⟩

/-- World for the failover claim: every tier misses, generation succeeds. -/
def worldAllMiss : World :=
  { now := 0, s3Head := fun _ => .error "NotFound", s3Get := fun _ => .error "NotFound",
    s3PutOk := true, diskWriteOk := true, generator := .ok [5] }

/-- C9: `s3Failover` installs the degraded-mode flags
(`USE_S3_CACHE = "false"`, `CACHE_MODE = "memory_only"`) in the process
environment, but the very next `getAudioWithCache` lookup under that
environment still issues the Remote-tier probe (and then every later one
does too): the lookup's only gate is the instance field `s3Cache`, which is
initialized to `true` and never read from or synchronized with the
environment flags the failover sets. -/
theorem c9_lookup_still_probes_s3_after_failover :
    (s3Failover {}).1 = { useS3Cache := some "false", cacheMode := some "memory_only" }
    ∧ (getAudioWithCache worldAllMiss (s3Failover {}).1 "hi" "Joanna" {}
        initialCacheState).2.2
      = [Ev.memProbe, Ev.diskProbe, Ev.s3Probe, Ev.genCall]
    ∧ (getAudioWithCache worldAllMiss (s3Failover {}).1 "hi" "Joanna" {}
        initialCacheState).1
      = .ok { audioBuffer := [5], source := .generated,
              cacheKey := generateCacheKey "hi" "Joanna" {}, fromCache := false } :=
  have h := getAudioWithCache_allMiss_genOk worldAllMiss (s3Failover {}).1 "hi" "Joanna"
    {} initialCacheState "NotFound" [5] rfl rfl rfl rfl rfl
  ⟨rfl, h.2, h.1⟩

/-- World for the concurrency claim: a slow generator that eventually
succeeds with one fixed buffer; all tiers miss. -/
def worldSlowGen : World :=
  { now := 0, s3Head := fun _ => .error "NotFound", s3Get := fun _ => .error "NotFound",
    s3PutOk := true, diskWriteOk := true, generator := .ok [7, 7, 7] }

/-- Two callers entering `getAudioWithCache` for the same key on one shared
cache instance. -/
def twoCallerStart : ConcSys :=
  { st := initialCacheState, genCount := 0, t0 := .start, t1 := .start }

/-- The schedule in which both callers pass their memory, disk and remote
probes before either generation completes — exactly the "slow generator"
race of the claim. -/
def overlappedSched : List Bool :=
  [false, true, false, true, false, true]

/-- The final system state of the overlapped schedule. -/
def overlappedFinal : ConcSys :=
  runSched worldSlowGen "alert" "Joanna" {} twoCallerStart overlappedSched

set_option maxRecDepth 400000 in
/-- C1 counterexample: with two concurrent callers for the same key, all
tiers missing and a slow generator, the source's `getAudioWithCache` — which
has no in-flight registry or coalescing mechanism — invokes the generator
in both callers: the invocation count is not 1, although both callers
complete successfully with the generated payload. -/
theorem c1_concurrent_callers_both_generate :
    ¬ (overlappedFinal.genCount = 1)
    ∧ overlappedFinal.t0
      = .done (.ok { audioBuffer := [7, 7, 7], source := .generated,
                     cacheKey := generateCacheKey "alert" "Joanna" {},
                     fromCache := false })
    ∧ overlappedFinal.t1
      = .done (.ok { audioBuffer := [7, 7, 7], source := .generated,
                     cacheKey := generateCacheKey "alert" "Joanna" {},
                     fromCache := false }) := by
  refine ⟨by decide, by decide, by decide⟩

set_option maxRecDepth 400000 in
/-- C1 amended: there is no request coalescing — in the overlapping
schedule each of the two concurrent callers whose tier probes all miss
invokes the generator itself, so the generator runs exactly twice (once per
caller), and both callers receive the identical successful generated
result. -/
theorem c1_no_coalescing_generator_runs_per_caller :
    overlappedFinal.genCount = 2
    ∧ overlappedFinal.t0 = overlappedFinal.t1
    ∧ (∃ r : CacheResult, overlappedFinal.t0 = .done (.ok r)
        ∧ r.audioBuffer = [7, 7, 7] ∧ r.source = .generated) := by
  refine ⟨by decide, by decide, ?_⟩
  refine ⟨{ audioBuffer := [7, 7, 7], source := .generated,
            cacheKey := generateCacheKey "alert" "Joanna" {}, fromCache := false },
          by decide, rfl, rfl⟩
